import Mathlib

/-!
Shallow embedding of `crates/biome_deserialize/src/json.rs`: the JSON format
adapter of the biome deserialization engine.  The adapter binds the generic
value-abstraction/visitor contracts to the JSON syntax tree
(`AnyJsonValue`), and orchestrates end-to-end parsing plus merging of
parse-phase and deserialization-phase diagnostics.

The core contracts (`Deserializable`, `DeserializationVisitor`,
`Deserialized`, `Text`, `TextNumber`) and the built-in output-type
implementations live in the `biome_deserialize` crate root, and the JSON
parser lives in `biome_json_parser`; those parts are modelled from the
specification (each such definition is marked `Modelled from the spec:`).
The `&mut Vec<DeserializationDiagnostic>` accumulator is embedded by
explicit state passing: every dispatch takes the current diagnostics list
and returns the pair of the optional output and the updated list.
-/

/-- A source range in byte offsets (biome_rowan::TextRange). -/
structure TextRange where
  start : Nat
  stop : Nat
deriving DecidableEq, Repr

/-- The coarse shape of a value node (`VisitableType` in biome_deserialize). -/
inductive VisitableType where
  | bool
  | null
  | number
  | str
  | array
  | map
deriving DecidableEq, Repr

/-- Structured payload of one deserialization diagnostic. -/
inductive DiagnosticKind where
  | incorrectType (expected : List VisitableType) (actual : VisitableType)
  | outOfRange (minV maxV : Int)
  | unknownKey (key : String) (allowed : List String)
deriving DecidableEq, Repr

/-- One deserialization-phase diagnostic (`DeserializationDiagnostic`). -/
structure DeserializationDiagnostic where
  kind : DiagnosticKind
  range : TextRange
deriving DecidableEq, Repr

/-- One parse-phase diagnostic emitted by the external JSON parser. -/
structure ParseDiagnostic where
  message : String
  range : TextRange
deriving DecidableEq, Repr

/-- Payload of a `biome_diagnostics::Error`: either a converted parse
diagnostic or a converted deserialization diagnostic. -/
inductive ErrorPayload where
  | parse (d : ParseDiagnostic)
  | deserialization (d : DeserializationDiagnostic)
deriving DecidableEq, Repr

/-- `biome_diagnostics::Error`: a diagnostic plus the optional source code
attached by `with_file_source_code`. -/
structure Error where
  payload : ErrorPayload
  sourceCode : Option String
deriving DecidableEq, Repr

/-- `Error::from` on a parse diagnostic. -/
def Error.fromParse (d : ParseDiagnostic) : Error :=
  { payload := ErrorPayload.parse d, sourceCode := none }

/-- `Error::from` on a deserialization diagnostic. -/
def Error.fromDeserialization (d : DeserializationDiagnostic) : Error :=
  { payload := ErrorPayload.deserialization d, sourceCode := none }

/-- `DiagnosticExt::with_file_source_code`: attach the original source text. -/
def Error.with_file_source_code (e : Error) (source : String) : Error :=
  { e with sourceCode := some source }

/-- `biome_rowan::SyntaxResult`: a node/token accessor either succeeds or
reports a missing/malformed slot. -/
inductive SyntaxResult (α : Type) where
  | ok (val : α)
  | err
deriving DecidableEq, Repr

/-- Rust's `Result::ok()`: forget the error. -/
def SyntaxResult.toOption {α : Type} : SyntaxResult α → Option α
  | .ok val => some val
  | .err => none

/-- The kind of the single token of a `JsonBooleanValue` (`T![true]` or
`T![false]`). -/
inductive JsonTokenKind where
  | trueKw
  | falseKw
deriving DecidableEq, Repr

/-- Borrowed string-like token text (`biome_deserialize::Text`). -/
structure Text where
  text : String
deriving DecidableEq, Repr

/-- Borrowed numeric token text, preserving the full original digit sequence
(`biome_deserialize::TextNumber`). -/
structure TextNumber where
  text : String
deriving DecidableEq, Repr

/-- The key node of a JSON object member (`biome_json_syntax::JsonMemberName`):
its source range and the result of `inner_string_text()`. -/
structure JsonMemberName where
  nodeRange : TextRange
  inner_string_text : SyntaxResult String
deriving DecidableEq, Repr

/-- The JSON value node (`biome_json_syntax::AnyJsonValue`).  Each variant
carries its source range and the data its accessors expose in `json.rs`:
`elements()` yields `SyntaxResult` element slots, `value_token()` is a
`SyntaxResult` token, `json_member_list()` yields `SyntaxResult` member
slots whose `name()`/`value()` accessors are themselves `SyntaxResult`s,
and `inner_string_text()` is a `SyntaxResult` text. -/
inductive AnyJsonValue : Type where
  | jsonArrayValue (nodeRange : TextRange)
      (elements : List (SyntaxResult AnyJsonValue))
  | jsonBogusValue (nodeRange : TextRange)
  | jsonBooleanValue (nodeRange : TextRange)
      (value_token : SyntaxResult JsonTokenKind)
  | jsonNullValue (nodeRange : TextRange)
  | jsonNumberValue (nodeRange : TextRange)
      (value_token : SyntaxResult String)
  | jsonObjectValue (nodeRange : TextRange)
      (json_member_list :
        List (SyntaxResult (SyntaxResult JsonMemberName × SyntaxResult AnyJsonValue)))
  | jsonStringValue (nodeRange : TextRange)
      (inner_string_text : SyntaxResult String)

/-- `AstNode::range` for `AnyJsonValue`. -/
def AnyJsonValue.range : AnyJsonValue → TextRange
  | .jsonArrayValue r _ => r
  | .jsonBogusValue r => r
  | .jsonBooleanValue r _ => r
  | .jsonNullValue r => r
  | .jsonNumberValue r _ => r
  | .jsonObjectValue r _ => r
  | .jsonStringValue r _ => r

/-- Modelled from the spec: the `DeserializationVisitor` contract (§4.2 of the
spec; the trait lives in the biome_deserialize crate root, not under src/).
Each `visit_*` method consumes the matching shape and the node's range and
field name, threading the diagnostics accumulator. -/
structure DeserializationVisitor (Output : Type) where
  visit_bool : Bool → TextRange → String → List DeserializationDiagnostic →
    Option Output × List DeserializationDiagnostic
  visit_null : TextRange → String → List DeserializationDiagnostic →
    Option Output × List DeserializationDiagnostic
  visit_number : TextNumber → TextRange → String → List DeserializationDiagnostic →
    Option Output × List DeserializationDiagnostic
  visit_str : Text → TextRange → String → List DeserializationDiagnostic →
    Option Output × List DeserializationDiagnostic
  visit_array : List (Option AnyJsonValue) → TextRange → String →
    List DeserializationDiagnostic →
    Option Output × List DeserializationDiagnostic
  visit_map : List (Option (JsonMemberName × AnyJsonValue)) → TextRange → String →
    List DeserializationDiagnostic →
    Option Output × List DeserializationDiagnostic

/-- `impl DeserializableValue for AnyJsonValue`: classify the node and invoke
the matching visitor method (json.rs lines 121-166).  A bogus node returns
`None` with no diagnostic (the parser already reported it); a failing token
accessor (`.ok()?`) likewise returns `None` silently. -/
def AnyJsonValue.deserialize {Output : Type} (self : AnyJsonValue)
    (visitor : DeserializationVisitor Output) (name : String)
    (diagnostics : List DeserializationDiagnostic) :
    Option Output × List DeserializationDiagnostic :=
  let range := self.range
  match self with
  | .jsonArrayValue _ array =>
    let items := array.map (fun x => x.toOption)
    visitor.visit_array items range name diagnostics
  | .jsonBogusValue _ =>
    -- The parser should emit an error about this node.
    -- No need to emit another diagnostic.
    (none, diagnostics)
  | .jsonBooleanValue _ value_token =>
    match value_token.toOption with
    | none => (none, diagnostics)
    | some value => visitor.visit_bool (value == JsonTokenKind.trueKw) range name diagnostics
  | .jsonNullValue _ => visitor.visit_null range name diagnostics
  | .jsonNumberValue _ value_token =>
    match value_token.toOption with
    | none => (none, diagnostics)
    | some token_text => visitor.visit_number ⟨token_text⟩ range name diagnostics
  | .jsonObjectValue _ object =>
    let members := object.map (fun member =>
      member.toOption.bind (fun nv =>
        nv.1.toOption.bind (fun n => nv.2.toOption.map (fun v => (n, v)))))
    visitor.visit_map members range name diagnostics
  | .jsonStringValue _ inner =>
    match inner.toOption with
    | none => (none, diagnostics)
    | some value => visitor.visit_str ⟨value⟩ range name diagnostics

/-- `impl DeserializableValue for JsonMemberName` (json.rs lines 168-182). -/
def JsonMemberName.deserialize {Output : Type} (self : JsonMemberName)
    (visitor : DeserializationVisitor Output) (name : String)
    (diagnostics : List DeserializationDiagnostic) :
    Option Output × List DeserializationDiagnostic :=
  match self.inner_string_text.toOption with
  | none => (none, diagnostics)
  | some value => visitor.visit_str ⟨value⟩ self.nodeRange name diagnostics

/-- Modelled from the spec: the `Deserializable` output-type contract (§4
of the spec; the trait lives in the biome_deserialize crate root, not under
src/), specialised to the JSON value node. -/
structure Deserializable (Output : Type) where
  deserialize : AnyJsonValue → String → List DeserializationDiagnostic →
    Option Output × List DeserializationDiagnostic

/-- The result container `Deserialized<T>`. -/
structure Deserialized (T : Type) where
  diagnostics : List Error
  deserialized : Option T
deriving Repr, DecidableEq

/-- The root of a parsed JSON tree (`biome_json_syntax::JsonRoot`): its
`value()` accessor yields the root value node or an error when the root
itself is malformed. -/
structure JsonRoot where
  value : SyntaxResult AnyJsonValue

/-- `deserialize_from_json_ast` (json.rs lines 109-119): extract the root
value node, dispatch the output type's deserialize on it with a fresh
diagnostics accumulator, and convert the diagnostics to `Error`s. -/
def deserialize_from_json_ast {Output : Type} (D : Deserializable Output)
    (parse : JsonRoot) : Deserialized Output :=
  let result : Option Output × List DeserializationDiagnostic :=
    match parse.value.toOption with
    | some value => D.deserialize value "" []
    | none => (none, [])
  { diagnostics := result.2.map Error.fromDeserialization
    deserialized := result.1 }

/-- Options of the external JSON parser (`JsonParserOptions`). -/
structure JsonParserOptions where
  allow_comments : Bool
  allow_trailing_commas : Bool
deriving DecidableEq, Repr

/-- `JsonParserOptions::default()`. -/
def JsonParserOptions.default : JsonParserOptions :=
  { allow_comments := false, allow_trailing_commas := false }

/-- A decimal digit character. -/
def isDigitsOnly (cs : List Char) : Bool :=
  !cs.isEmpty && cs.all Char.isDigit

/-- Whether a source string is exactly one decimal integer literal
(optional leading minus followed by one or more digits). -/
def isNumberLiteral (s : String) : Bool :=
  match s.data with
  | '-' :: rest => isDigitsOnly rest
  | cs => isDigitsOnly cs

/-- Whether a source string is exactly one simple JSON string literal:
a double quote, inner characters that are not quotes, a double quote. -/
def isStringLiteral (s : String) : Bool :=
  match s.data with
  | '"' :: rest =>
    !rest.isEmpty && rest.getLast? == some '"' && rest.dropLast.all (fun c => c != '"')
  | _ => false

/-- The inner text of a simple string literal: drop the enclosing quotes. -/
def innerStringOf (s : String) : String :=
  ⟨(s.data.drop 1).dropLast⟩

/-- The result of `parse_json`: the tree and the parse-phase diagnostics. -/
structure JsonParse where
  tree : JsonRoot
  diagnostics : List ParseDiagnostic

/-- Modelled from the spec: `biome_json_parser::parse_json` (an EXTERNAL
collaborator per §1/§6 of the spec).  The model covers the scalar sources
the specified behaviours exercise: an integer numeric literal, `true`,
`false`, `null`, and a simple string literal each parse to the matching
value node with no diagnostics; any other source yields an error-recovery
(bogus) node accompanied by one parse diagnostic, honouring the contract
obligation (§9) that every malformed node comes with a parser diagnostic. -/
def parse_json (source : String) (_options : JsonParserOptions) : JsonParse :=
  let range : TextRange := ⟨0, source.length⟩
  if isNumberLiteral source then
    { tree := ⟨SyntaxResult.ok (.jsonNumberValue range (SyntaxResult.ok source))⟩
      diagnostics := [] }
  else if source = "true" then
    { tree := ⟨SyntaxResult.ok (.jsonBooleanValue range (SyntaxResult.ok JsonTokenKind.trueKw))⟩
      diagnostics := [] }
  else if source = "false" then
    { tree := ⟨SyntaxResult.ok (.jsonBooleanValue range (SyntaxResult.ok JsonTokenKind.falseKw))⟩
      diagnostics := [] }
  else if source = "null" then
    { tree := ⟨SyntaxResult.ok (.jsonNullValue range)⟩
      diagnostics := [] }
  else if isStringLiteral source then
    { tree := ⟨SyntaxResult.ok (.jsonStringValue range (SyntaxResult.ok (innerStringOf source)))⟩
      diagnostics := [] }
  else
    { tree := ⟨SyntaxResult.ok (.jsonBogusValue range)⟩
      diagnostics := [⟨"unexpected or malformed JSON value", range⟩] }

/-- `deserialize_from_json_str` (json.rs lines 82-106): parse the source,
deserialize the AST, then merge the two diagnostic streams: all parse-phase
diagnostics first, then all deserialization-phase diagnostics, each
annotated with the original source text. -/
def deserialize_from_json_str {Output : Type} (D : Deserializable Output)
    (source : String) (options : JsonParserOptions) : Deserialized Output :=
  let parse := parse_json source options
  let ast := deserialize_from_json_ast D parse.tree
  let errors := parse.diagnostics.map Error.fromParse
  let errors := errors ++ ast.diagnostics.map (fun diagnostic => diagnostic.with_file_source_code source)
  { diagnostics := errors
    deserialized := ast.deserialized }

/-- Modelled from the spec: the default `visit_*` behaviour of the
`DeserializationVisitor` trait (§4.2; the trait lives in the
biome_deserialize crate root, not under src/): every method not overridden
emits a "type mismatch: expected EXPECTED_TYPE, found actual" diagnostic
and returns `None`. -/
def defaultVisitor (Output : Type) (expected : List VisitableType) :
    DeserializationVisitor Output where
  visit_bool := fun _ range _ diagnostics =>
    (none, diagnostics ++ [⟨DiagnosticKind.incorrectType expected VisitableType.bool, range⟩])
  visit_null := fun range _ diagnostics =>
    (none, diagnostics ++ [⟨DiagnosticKind.incorrectType expected VisitableType.null, range⟩])
  visit_number := fun _ range _ diagnostics =>
    (none, diagnostics ++ [⟨DiagnosticKind.incorrectType expected VisitableType.number, range⟩])
  visit_str := fun _ range _ diagnostics =>
    (none, diagnostics ++ [⟨DiagnosticKind.incorrectType expected VisitableType.str, range⟩])
  visit_array := fun _ range _ diagnostics =>
    (none, diagnostics ++ [⟨DiagnosticKind.incorrectType expected VisitableType.array, range⟩])
  visit_map := fun _ range _ diagnostics =>
    (none, diagnostics ++ [⟨DiagnosticKind.incorrectType expected VisitableType.map, range⟩])

/-- An output type whose `Deserializable::deserialize` dispatches the value
abstraction with one concrete visitor. -/
def visitorDeserialize {Output : Type} (V : DeserializationVisitor Output) :
    Deserializable Output :=
  ⟨fun value name diagnostics => value.deserialize V name diagnostics⟩

/-- Modelled from the spec: the built-in `Deserializable` impl for the unit
type `()` (§4.3; the impl lives in the biome_deserialize crate root, not
under src/): it expects no particular shape, so every visited shape fails
with a type-mismatch diagnostic. -/
def unitDeserializable : Deserializable Unit :=
  visitorDeserialize (defaultVisitor Unit [])

/-- Digit characters of `n` in base ten, most significant first; `fuel`
bounds the recursion and is kept large enough for every literal used here. -/
def natDecDigits : Nat → Nat → List Char
  | 0, _ => []
  | fuel + 1, n =>
    if n = 0 then [] else natDecDigits fuel (n / 10) ++ [Char.ofNat (48 + n % 10)]

/-- Decimal rendering of a natural number. -/
def natToDecString (n : Nat) : String :=
  if n = 0 then "0" else ⟨natDecDigits 48 n⟩

/-- Decimal rendering of an integer. -/
def intToDecString (i : Int) : String :=
  if i < 0 then "-" ++ natToDecString i.natAbs else natToDecString i.natAbs

/-- Value of a list of decimal digit characters, accumulator style. -/
def digitsToNat (acc : Nat) : List Char → Nat
  | [] => acc
  | c :: cs => digitsToNat (acc * 10 + (c.toNat - 48)) cs

/-- Parse a decimal integer literal (optional leading minus, then digits),
as Rust's `str::parse` into an integer type does before range checking. -/
def parseIntText (s : String) : Option Int :=
  match s.data with
  | '-' :: rest =>
    if isDigitsOnly rest then some (-(digitsToNat 0 rest : Int)) else none
  | cs =>
    if isDigitsOnly cs then some (digitsToNat 0 cs : Int) else none

/-- Modelled from the spec: the shared behaviour of the built-in integer
`Deserializable` impls (§4.3; the impls live in the biome_deserialize crate
root, not under src/).  The visitor expects NUMBER; `visit_number` parses
the borrowed digit text and, on a parse failure or a value outside
`[minV, maxV]`, emits a "number out of range for type" diagnostic naming
the valid range and returns `None` — it never saturates or truncates. -/
def intVisitor (minV maxV : Int) : DeserializationVisitor Int :=
  { defaultVisitor Int [VisitableType.number] with
    visit_number := fun value range _name diagnostics =>
      match parseIntText value.text with
      | some n =>
        if minV ≤ n ∧ n ≤ maxV then (some n, diagnostics)
        else (none, diagnostics ++ [⟨DiagnosticKind.outOfRange minV maxV, range⟩])
      | none => (none, diagnostics ++ [⟨DiagnosticKind.outOfRange minV maxV, range⟩]) }

/-- The integer `Deserializable` impl with domain `[minV, maxV]`. -/
def intDeserializable (minV maxV : Int) : Deserializable Int :=
  visitorDeserialize (intVisitor minV maxV)

/-- Modelled from the spec: the built-in `Deserializable` impl for
`TextNumber` (§4.3; it lives in the biome_deserialize crate root, not under
src/): expects NUMBER and preserves the literal digit text verbatim with no
numeric interpretation. -/
def textNumberDeserializable : Deserializable TextNumber :=
  visitorDeserialize
    { defaultVisitor TextNumber [VisitableType.number] with
      visit_number := fun value _range _name diagnostics => (some value, diagnostics) }

/-- The built-in fixed-width integer output types (usize/isize modelled as
64-bit, matching the test suite's use of `usize::MAX`). -/
inductive IntType where
  | u8
  | u16
  | u32
  | u64
  | usize
  | i8
  | i16
  | i32
  | i64
  | isize
deriving DecidableEq, Repr

/-- Lower bound of the type's domain. -/
def IntType.minOf : IntType → Int
  | .u8 | .u16 | .u32 | .u64 | .usize => 0
  | .i8 => -(2 ^ 7)
  | .i16 => -(2 ^ 15)
  | .i32 => -(2 ^ 31)
  | .i64 | .isize => -(2 ^ 63)

/-- Upper bound of the type's domain. -/
def IntType.maxOf : IntType → Int
  | .u8 => 2 ^ 8 - 1
  | .u16 => 2 ^ 16 - 1
  | .u32 => 2 ^ 32 - 1
  | .u64 | .usize => 2 ^ 64 - 1
  | .i8 => 2 ^ 7 - 1
  | .i16 => 2 ^ 15 - 1
  | .i32 => 2 ^ 31 - 1
  | .i64 | .isize => 2 ^ 63 - 1

/-- The `Deserializable` impl of a built-in integer type. -/
def IntType.deserializable (t : IntType) : Deserializable Int :=
  intDeserializable t.minOf t.maxOf

/-- The built-in non-zero unsigned integer output types
(NonZeroU8 through NonZeroUsize). -/
inductive NonZeroType where
  | u8
  | u16
  | u32
  | u64
  | usize
deriving DecidableEq, Repr

/-- Upper bound of the corresponding unsigned type. -/
def NonZeroType.maxOf : NonZeroType → Int
  | .u8 => 2 ^ 8 - 1
  | .u16 => 2 ^ 16 - 1
  | .u32 => 2 ^ 32 - 1
  | .u64 | .usize => 2 ^ 64 - 1

/-- Modelled from the spec: the built-in `Deserializable` impls for the
non-zero integer types (§4.3; they live in the biome_deserialize crate
root, not under src/): a zero value violates the non-zero constraint and is
reported with the same "number out of range" diagnostic, so the domain is
`[1, maxOf]`. -/
def NonZeroType.deserializable (t : NonZeroType) : Deserializable Int :=
  intDeserializable 1 t.maxOf

/-- The decimal text of `u128::MAX`. -/
def u128MaxText : String := natToDecString (2 ^ 128 - 1)

/-- C1: for every source text, parser options, and output type, the
diagnostics list returned by `deserialize_from_json_str` is exactly the
parse-phase diagnostics (in parser order) followed by the
deserialization-phase diagnostics (in traversal order, each annotated with
the original source text); no diagnostic is dropped, reordered, or
interleaved across the two streams. -/
theorem c1_diagnostic_streams_merged_in_order {Output : Type}
    (D : Deserializable Output) (source : String) (options : JsonParserOptions) :
    (deserialize_from_json_str D source options).diagnostics =
      (parse_json source options).diagnostics.map Error.fromParse ++
        (deserialize_from_json_ast D (parse_json source options).tree).diagnostics.map
          (fun diagnostic => diagnostic.with_file_source_code source) := rfl

/-- C2: for every visitor, field name, and diagnostics accumulator, calling
`AnyJsonValue::deserialize` on a `JsonBogusValue` (error-recovery) node
returns `None` and leaves the diagnostics accumulator unchanged: no
diagnostic is emitted for a node the upstream parser already flagged. -/
theorem c2_bogus_node_silent_none {Output : Type}
    (visitor : DeserializationVisitor Output) (r : TextRange) (name : String)
    (diagnostics : List DeserializationDiagnostic) :
    AnyJsonValue.deserialize (.jsonBogusValue r) visitor name diagnostics =
      (none, diagnostics) := rfl

/-- C3: `AnyJsonValue::deserialize` classifies every node into exactly one
visitor call: an array literal invokes `visit_array` with its elements in
source order (an unparseable element slot presented as `None`), an object
literal invokes `visit_map` with its key-node/value-node pairs in source
order, and boolean/null/number/string literals invoke
`visit_bool`/`visit_null`/`visit_number`/`visit_str` respectively, each
call receiving the node's source range. -/
theorem c3_dispatch_per_node_kind {Output : Type}
    (visitor : DeserializationVisitor Output) (r : TextRange) (name : String)
    (diagnostics : List DeserializationDiagnostic) :
    (∀ elements, AnyJsonValue.deserialize (.jsonArrayValue r elements) visitor name diagnostics =
      visitor.visit_array (elements.map (fun x => x.toOption)) r name diagnostics)
    ∧ (∀ x : SyntaxResult AnyJsonValue, x.toOption = none ↔ x = SyntaxResult.err)
    ∧ (∀ memberList,
        AnyJsonValue.deserialize (.jsonObjectValue r memberList) visitor name diagnostics =
          visitor.visit_map
            (memberList.map (fun member =>
              member.toOption.bind (fun nv =>
                nv.1.toOption.bind (fun n => nv.2.toOption.map (fun v => (n, v))))))
            r name diagnostics)
    ∧ (∀ kind, AnyJsonValue.deserialize (.jsonBooleanValue r (SyntaxResult.ok kind)) visitor name diagnostics =
        visitor.visit_bool (kind == JsonTokenKind.trueKw) r name diagnostics)
    ∧ (AnyJsonValue.deserialize (.jsonNullValue r) visitor name diagnostics =
        visitor.visit_null r name diagnostics)
    ∧ (∀ token_text, AnyJsonValue.deserialize (.jsonNumberValue r (SyntaxResult.ok token_text)) visitor name diagnostics =
        visitor.visit_number ⟨token_text⟩ r name diagnostics)
    ∧ (∀ s, AnyJsonValue.deserialize (.jsonStringValue r (SyntaxResult.ok s)) visitor name diagnostics =
        visitor.visit_str ⟨s⟩ r name diagnostics) := by
  refine ⟨fun _ => rfl, ?_, fun _ => rfl, fun _ => rfl, rfl, fun _ => rfl, fun _ => rfl⟩
  intro x
  cases x <;> simp [SyntaxResult.toOption]

/-- C4: for every output type, if the root tree node's `value()` is
malformed, `deserialize_from_json_ast` returns a result with no value and
an empty diagnostics list (no extra diagnostic of its own); otherwise its
diagnostics are exactly those pushed by the output type's deserialize call
on the root value node (converted to `Error`s), and its value is the one
that call produced. -/
theorem c4_root_extraction {Output : Type} (D : Deserializable Output) (root : JsonRoot) :
    (root.value = SyntaxResult.err →
      deserialize_from_json_ast D root = { diagnostics := [], deserialized := none })
    ∧ (∀ v, root.value = SyntaxResult.ok v →
        (deserialize_from_json_ast D root).deserialized = (D.deserialize v "" []).1
        ∧ (deserialize_from_json_ast D root).diagnostics =
            ((D.deserialize v "" []).2).map Error.fromDeserialization) := by
  constructor
  · intro h
    simp [deserialize_from_json_ast, h, SyntaxResult.toOption]
  · intro v h
    simp [deserialize_from_json_ast, h, SyntaxResult.toOption]

/-- Witness for C4 at concrete inputs: a malformed root with the unit
output type, and a well-formed null root with the unit output type. -/
theorem c4_root_extraction_witness :
    (deserialize_from_json_ast unitDeserializable ⟨SyntaxResult.err⟩ =
      { diagnostics := [], deserialized := none })
    ∧ ((deserialize_from_json_ast unitDeserializable
          ⟨SyntaxResult.ok (.jsonNullValue ⟨0, 4⟩)⟩).deserialized =
        (unitDeserializable.deserialize (.jsonNullValue ⟨0, 4⟩) "" []).1
      ∧ (deserialize_from_json_ast unitDeserializable
          ⟨SyntaxResult.ok (.jsonNullValue ⟨0, 4⟩)⟩).diagnostics =
        ((unitDeserializable.deserialize (.jsonNullValue ⟨0, 4⟩) "" []).2).map
          Error.fromDeserialization) :=
  ⟨(c4_root_extraction unitDeserializable ⟨SyntaxResult.err⟩).1 rfl,
   (c4_root_extraction unitDeserializable ⟨SyntaxResult.ok (.jsonNullValue ⟨0, 4⟩)⟩).2
     (.jsonNullValue ⟨0, 4⟩) rfl⟩

/-- Whether an error is a "number out of range" deserialization diagnostic
naming exactly the domain `[minV, maxV]`. -/
def Error.isOutOfRangeDiagnostic (minV maxV : Int) (e : Error) : Bool :=
  match e.payload with
  | ErrorPayload.deserialization d =>
    match d.kind with
    | DiagnosticKind.outOfRange a b => a == minV && b == maxV
    | _ => false
  | _ => false

/-- C5: for every built-in integer output type with domain `[min, max]`,
deserializing the decimal literal of `min` or `max` via
`deserialize_from_json_str` yields exactly that value with zero
diagnostics, while deserializing the literal of `min - 1` or `max + 1`
yields no value and at least one "number out of range" diagnostic naming
the type's valid range — the value is never silently saturated or
truncated.  For `u8` this instantiates to: input "255" yields 255 with
zero diagnostics, input "256" yields no value and at least one
diagnostic. -/
theorem c5_integer_bounds : ∀ t : IntType,
    ((deserialize_from_json_str t.deserializable (intToDecString t.minOf)
        JsonParserOptions.default).deserialized = some t.minOf
      ∧ (deserialize_from_json_str t.deserializable (intToDecString t.minOf)
          JsonParserOptions.default).diagnostics = [])
    ∧ ((deserialize_from_json_str t.deserializable (intToDecString t.maxOf)
          JsonParserOptions.default).deserialized = some t.maxOf
      ∧ (deserialize_from_json_str t.deserializable (intToDecString t.maxOf)
          JsonParserOptions.default).diagnostics = [])
    ∧ ((deserialize_from_json_str t.deserializable (intToDecString (t.minOf - 1))
          JsonParserOptions.default).deserialized = none
      ∧ (deserialize_from_json_str t.deserializable (intToDecString (t.minOf - 1))
          JsonParserOptions.default).diagnostics.any
            (Error.isOutOfRangeDiagnostic t.minOf t.maxOf) = true)
    ∧ ((deserialize_from_json_str t.deserializable (intToDecString (t.maxOf + 1))
          JsonParserOptions.default).deserialized = none
      ∧ (deserialize_from_json_str t.deserializable (intToDecString (t.maxOf + 1))
          JsonParserOptions.default).diagnostics.any
            (Error.isOutOfRangeDiagnostic t.minOf t.maxOf) = true) := by
  intro t
  cases t <;> decide

/-- C6: deserializing a JSON numeric literal as `TextNumber` preserves the
literal digit text verbatim with no numeric interpretation: every integer
numeric literal deserializes with zero diagnostics to a `TextNumber` whose
text equals the input digit string exactly (in particular the decimal text
of `u128::MAX`, with no precision loss), while deserializing a non-number
input such as "true" as `TextNumber` yields no value and at least one
diagnostic. -/
theorem c6_text_number_verbatim :
    (∀ s : String, isNumberLiteral s = true →
      (deserialize_from_json_str textNumberDeserializable s
          JsonParserOptions.default).deserialized = some ⟨s⟩
      ∧ (deserialize_from_json_str textNumberDeserializable s
          JsonParserOptions.default).diagnostics = [])
    ∧ ((deserialize_from_json_str textNumberDeserializable "true"
          JsonParserOptions.default).deserialized = none
      ∧ (deserialize_from_json_str textNumberDeserializable "true"
          JsonParserOptions.default).diagnostics ≠ []) := by
  constructor
  · intro s h
    simp [deserialize_from_json_str, parse_json, h, deserialize_from_json_ast,
      SyntaxResult.toOption, textNumberDeserializable, visitorDeserialize,
      AnyJsonValue.deserialize, defaultVisitor]
  · decide

/-- Witness for C6 at the decimal text of `u128::MAX`: the digit string
round-trips exactly. -/
theorem c6_text_number_verbatim_witness :
    u128MaxText = "340282366920938463463374607431768211455"
    ∧ ((deserialize_from_json_str textNumberDeserializable u128MaxText
          JsonParserOptions.default).deserialized = some ⟨u128MaxText⟩
      ∧ (deserialize_from_json_str textNumberDeserializable u128MaxText
          JsonParserOptions.default).diagnostics = []) :=
  ⟨by decide, c6_text_number_verbatim.1 u128MaxText (by decide)⟩

/-- C7: for every input source text (and parser options), deserializing it
as the unit type `()` via `deserialize_from_json_str` yields no value and a
non-empty diagnostics list: a well-shaped value fails the unit visitor with
a type-mismatch diagnostic, and a malformed source carries a parse-phase
diagnostic. -/
theorem c7_unit_always_fails (source : String) (options : JsonParserOptions) :
    (deserialize_from_json_str unitDeserializable source options).deserialized = none
    ∧ (deserialize_from_json_str unitDeserializable source options).diagnostics ≠ [] := by
  unfold deserialize_from_json_str parse_json
  split_ifs <;>
    simp [deserialize_from_json_ast, unitDeserializable, visitorDeserialize,
      AnyJsonValue.deserialize, defaultVisitor, SyntaxResult.toOption,
      Error.fromParse, Error.fromDeserialization, Error.with_file_source_code]

/-- C8: for every built-in non-zero integer type (NonZeroU8 through
NonZeroUsize), deserializing the input "0" via `deserialize_from_json_str`
yields no value and at least one diagnostic, and deserializing the input
"1" yields the value 1 with zero diagnostics. -/
theorem c8_non_zero_types : ∀ t : NonZeroType,
    ((deserialize_from_json_str t.deserializable "0"
        JsonParserOptions.default).deserialized = none
      ∧ (deserialize_from_json_str t.deserializable "0"
          JsonParserOptions.default).diagnostics ≠ [])
    ∧ ((deserialize_from_json_str t.deserializable "1"
          JsonParserOptions.default).deserialized = some 1
      ∧ (deserialize_from_json_str t.deserializable "1"
          JsonParserOptions.default).diagnostics = []) := by
  intro t
  cases t <;> decide

/-- C9: `deserialize_from_json_str` is deterministic: two invocations with
the same source, options and output type yield identical results — the
same optional value and identical diagnostics in the same order.  The
embedding is a pure function threading its diagnostics accumulator
explicitly, so there is no hidden state between calls. -/
theorem c9_deterministic {Output : Type} (D : Deserializable Output)
    (source : String) (options : JsonParserOptions) :
    deserialize_from_json_str D source options = deserialize_from_json_str D source options
    ∧ (deserialize_from_json_str D source options).diagnostics =
        (deserialize_from_json_str D source options).diagnostics
    ∧ (deserialize_from_json_str D source options).deserialized =
        (deserialize_from_json_str D source options).deserialized :=
  ⟨rfl, rfl, rfl⟩

/-- C10: in `AnyJsonValue::deserialize`, if a boolean or number node's value
token, or a string node's inner string text, cannot be retrieved (the
accessor returns an error), the function returns `None` without pushing any
diagnostic — the same silent-drop behaviour as for bogus nodes. -/
theorem c10_token_error_silent_none {Output : Type}
    (visitor : DeserializationVisitor Output) (r : TextRange) (name : String)
    (diagnostics : List DeserializationDiagnostic) :
    AnyJsonValue.deserialize (.jsonBooleanValue r SyntaxResult.err) visitor name diagnostics =
      (none, diagnostics)
    ∧ AnyJsonValue.deserialize (.jsonNumberValue r SyntaxResult.err) visitor name diagnostics =
      (none, diagnostics)
    ∧ AnyJsonValue.deserialize (.jsonStringValue r SyntaxResult.err) visitor name diagnostics =
      (none, diagnostics) := ⟨rfl, rfl, rfl⟩
